import Mathlib

/-!
# Verification of the Glare artifact repository specification

Shallow embedding of the artifact lifecycle and metadata engine of the
Glare (Glance Artifact Repository) service, together with proofs of the
behavioural properties stated in its specification.

The service entry point (`glare/cmd/api.py`) is embedded directly from the
source.  The lifecycle engine itself (artifact creation, JSON-patch driven
updates, the status/visibility state machine, blob slots and the catalog
query validation) is not part of the available sources; it is modelled from
the specification, adjusted where the repository's own functional tests
(`glare/tests/functional/test_artifacts.py`) pin a different behaviour; the
relevant test lines are cited at each such point.

The registered artifact type is `sample_artifact`
(`glare/tests/functional/sample_artifact.py`); the attributes retained in
the model are those the claims exercise: `string_mutable` (mutable after
activation), `string_required` (required on activate), `str1` (plain custom
string), the intrinsic `description` (mutable), and the blob slot `blob`.
-/

namespace Glare

/-- Artifact lifecycle status, the enum `{queued, active, deactivated,
deleted}` of the data model. -/
inductive Status where
  | queued
  | active
  | deactivated
  | deleted
deriving DecidableEq, Repr

/-- Artifact visibility `{private, public}` (`private`/`public` are Lean
keywords, hence `priv`/`pub`). -/
inductive Visibility where
  | priv
  | pub
deriving DecidableEq, Repr

/-- Semantic version triple.  Modelled from the spec: `version` is
"SemVer-ish"; versions are stored normalized ("0.0" and "0.0.0" denote the
same version, cf. test_create_artifact lines 943-968). -/
structure SemVer where
  major : Nat
  minor : Nat
  patch : Nat
deriving DecidableEq, Repr

/-- Split a character list into the groups separated by dots. -/
def splitDots : List Char → List (List Char)
  | [] => [[]]
  | ch :: rest =>
    if ch = '.' then [] :: splitDots rest
    else
      match splitDots rest with
      | [] => [[ch]]
      | g :: gs => (ch :: g) :: gs

/-- Accumulate the value of a decimal digit sequence; fails on a non-digit
character. -/
def digitsToNat (acc : Nat) : List Char → Option Nat
  | [] => some acc
  | ch :: rest =>
    if ch.isDigit then digitsToNat (acc * 10 + (ch.toNat - 48)) rest else none

/-- Parse one non-empty numeric version component. -/
def parseNatDigits : List Char → Option Nat
  | [] => none
  | l => digitsToNat 0 l

/-- Modelled from the spec: parsing of a client supplied version string.
Accepts 1 to 3 dot-separated numeric components, missing components default
to zero; anything else (empty string, non-numeric text) is invalid
(test_create_artifact lines 953-961 reject "dummy_version", "" and
"t"*256). -/
def parseVersion (v : String) : Option SemVer :=
  match (splitDots v.data).map parseNatDigits with
  | [some a] => some ⟨a, 0, 0⟩
  | [some a, some b] => some ⟨a, b, 0⟩
  | [some a, some b, some p] => some ⟨a, b, p⟩
  | _ => none

/-- The default version assigned when a create request carries no
`version` ("0.0.0", test_create_artifact line 948). -/
def defaultVersion : SemVer := ⟨0, 0, 0⟩

/-- Blob slot status; bytes are immutable once `active`. -/
inductive BlobStatus where
  | saving
  | active
deriving DecidableEq, Repr

/-- A blob slot value record `{size, checksum, content_type, status,
external}`; checksum/content type are elided, `external` is true when the
slot references a URL rather than stored bytes. -/
structure BlobSlot where
  size : Nat
  bstatus : BlobStatus
  external : Bool
deriving DecidableEq, Repr

/-- The artifact record: intrinsic attributes plus the custom attributes of
`sample_artifact` needed by the claims. -/
structure Artifact where
  id : Nat
  typeName : String
  name : String
  version : SemVer
  owner : String
  visibility : Visibility
  status : Status
  description : Option String
  string_mutable : Option String
  string_required : Option String
  str1 : Option String
  blob : Option BlobSlot
deriving DecidableEq, Repr

/-- A request caller: tenant (none = anonymous) and admin role flag, from
the `X-Tenant-Id` / `X-Roles` identity headers. -/
structure Caller where
  tenant : Option String
  isAdmin : Bool
deriving DecidableEq, Repr

/-- Service state: the stored artifacts and the id counter (the model uses
sequential naturals in place of v4 UUIDs). -/
structure State where
  arts : List Artifact
  nextId : Nat
deriving DecidableEq, Repr

/-- The empty initial state. -/
def initState : State := ⟨[], 0⟩

/-- Modelled from the spec: visibility scoping of the persistence gateway —
non-deleted and (public, or admin viewer, or owned by the viewer's
tenant). -/
def visibleTo (c : Caller) (a : Artifact) : Bool :=
  decide (a.status ≠ .deleted) &&
    (decide (a.visibility = .pub) || c.isAdmin || decide (c.tenant = some a.owner))

/-- Find a stored artifact by id. -/
def lookupArt (s : State) (aid : Nat) : Option Artifact :=
  s.arts.find? (fun a => a.id = aid)

/-- Replace the artifact with id `aid` by `a'` (the transactional commit of
one mutation). -/
def setArt (s : State) (aid : Nat) (a' : Artifact) : State :=
  ⟨s.arts.map (fun b => if b.id = aid then a' else b), s.nextId⟩

/-- Modelled from the spec: the name/version uniqueness check performed on
create and on version update.  Scoped to non-deleted *private* artifacts of
the same type and owner: the repository's tests show that after an artifact
is published, the same owner may create a fresh private artifact with the
same name and version (test_create_artifact lines 1023-1030), so the
private and public scopes are separate. -/
def privConflict (l : List Artifact) (excl : Option Nat) (ty nm : String)
    (ver : SemVer) (ownr : String) : Bool :=
  l.any (fun b =>
    decide (excl ≠ some b.id) && decide (b.status ≠ .deleted) &&
    decide (b.visibility = .priv) && decide (b.typeName = ty) &&
    decide (b.name = nm) && decide (b.version = ver) && decide (b.owner = ownr))

/-- Modelled from the spec: the `(type, name, version)` uniqueness check
over non-deleted public artifacts, performed on publish
(test_artifact_publish lines 1242-1251). -/
def pubConflict (l : List Artifact) (excl : Nat) (ty nm : String)
    (ver : SemVer) : Bool :=
  l.any (fun b =>
    decide (b.id ≠ excl) && decide (b.status ≠ .deleted) &&
    decide (b.visibility = .pub) && decide (b.typeName = ty) &&
    decide (b.name = nm) && decide (b.version = ver))

/-- The body of an artifact-create request (POST), restricted to the
attributes the claims exercise.  `visibility` and `system_attribute` are
recorded as raw request payload so the create checks can reject them. -/
structure CreateData where
  name : Option String
  version : Option String
  visibility : Option String
  system_attribute : Option String
  description : Option String
  string_mutable : Option String
  string_required : Option String
  str1 : Option String
deriving DecidableEq, Repr

/-- Modelled from the spec: artifact creation.  Anonymous callers are
rejected with 403; a body naming `visibility` is rejected with 400
(test_create_artifact lines 974-976) and one naming a system attribute
with 403 (lines 977-979); the name must be present, non-empty and at most
255 characters (lines 937-942); the version must parse (lines 953-961,
default "0.0.0"); a private-scope name/version duplicate yields 409
(lines 962-968); otherwise the artifact is stored with status `queued`,
visibility `private` and owner = caller tenant.  Returns the HTTP status
code and the resulting state. -/
def createArt (s : State) (c : Caller) (d : CreateData) : Nat × State :=
  match c.tenant with
  | none => (403, s)
  | some t =>
    if d.visibility ≠ none then (400, s)
    else if d.system_attribute ≠ none then (403, s)
    else
      match d.name with
      | none => (400, s)
      | some nm =>
        if nm.length = 0 ∨ nm.length > 255 then (400, s)
        else
          match (d.version.getD "0.0.0") |> parseVersion with
          | none => (400, s)
          | some ver =>
            if privConflict s.arts none "sample_artifact" nm ver t then (409, s)
            else
              (201, ⟨{ id := s.nextId, typeName := "sample_artifact", name := nm,
                       version := ver, owner := t, visibility := .priv,
                       status := .queued, description := d.description,
                       string_mutable := d.string_mutable,
                       string_required := d.string_required, str1 := d.str1,
                       blob := none } :: s.arts, s.nextId + 1⟩)

/-- GET of a single artifact: 200 when visible to the caller, otherwise the
absence signal 404 (also for existing but foreign private artifacts, to
avoid leaking existence). -/
def getArt (s : State) (c : Caller) (aid : Nat) : Nat :=
  match lookupArt s aid with
  | none => 404
  | some a => if visibleTo c a then 200 else 404

/-- Parsing of a client supplied `status` value.  Modelled from the spec:
clients may only name the states of the public state machine; `deleting`
(and `deleted`) are server managed and rejected as invalid values
(test_artifact_delete lines 1314-1319 expect 400 for "deleting"). -/
def parseStatus : String → Option Status
  | "queued" => some .queued
  | "active" => some .active
  | "deactivated" => some .deactivated
  | _ => none

/-- Parsing of a client supplied `visibility` value. -/
def parseVisibility : String → Option Visibility
  | "private" => some .priv
  | "public" => some .pub
  | _ => none

/-- A JSON-Patch operation on the attributes retained in the model, the
`{op: replace/add, path: /attr, value: v}` shapes the claims exercise. -/
inductive PatchOp where
  | setStatus (v : String)
  | setVisibility (v : String)
  | setName (v : String)
  | setVersion (v : String)
  | setDescription (v : String)
  | setStringMutable (v : String)
  | setStringRequired (v : String)
  | setStr1 (v : String)
deriving DecidableEq, Repr

/-- Modelled from the spec: application of one patch operation to the
in-memory artifact view.  `none` means the value is invalid
(BadRequest). -/
def applyOp (a : Artifact) : PatchOp → Option Artifact
  | .setStatus v => (parseStatus v).map (fun st => { a with status := st })
  | .setVisibility v => (parseVisibility v).map (fun vis => { a with visibility := vis })
  | .setName v =>
      if v.length = 0 ∨ v.length > 255 then none else some { a with name := v }
  | .setVersion v => (parseVersion v).map (fun ver => { a with version := ver })
  | .setDescription v => some { a with description := some v }
  | .setStringMutable v => some { a with string_mutable := some v }
  | .setStringRequired v => some { a with string_required := some v }
  | .setStr1 v => some { a with str1 := some v }

/-- Sequential application of a JSON-Patch body. -/
def applyOps (a : Artifact) : List PatchOp → Option Artifact
  | [] => some a
  | op :: rest =>
    match applyOp a op with
    | none => none
    | some b => applyOps b rest

/-- Whether the named client-settable field differs between the current and
the proposed record. -/
def fieldChanged (a b : Artifact) : String → Bool
  | "name" => decide (a.name ≠ b.name)
  | "version" => decide (a.version ≠ b.version)
  | "visibility" => decide (a.visibility ≠ b.visibility)
  | "status" => decide (a.status ≠ b.status)
  | "description" => decide (a.description ≠ b.description)
  | "string_mutable" => decide (a.string_mutable ≠ b.string_mutable)
  | "string_required" => decide (a.string_required ≠ b.string_required)
  | "str1" => decide (a.str1 ≠ b.str1)
  | _ => false

/-- The client-settable fields of the model. -/
def FIELDS : List String :=
  ["name", "version", "visibility", "status", "description",
   "string_mutable", "string_required", "str1"]

/-- The effective changes of a patch: the fields on which the proposed
record differs from the stored one.  The engine classifies a patch by its
effective changes, not by its operation list: an operation that re-applies
the current value does not count (test_artifact_activate lines
1197-1199). -/
def changedFields (a b : Artifact) : List String :=
  FIELDS.filter (fieldChanged a b)

/-- The attributes that stay mutable after activation: the intrinsic
`description` and the custom `string_mutable`
(sample_artifact.py line 88, test_artifact_lifecycle lines 304-308). -/
def isMutable : String → Bool
  | "description" => true
  | "string_mutable" => true
  | _ => false

/-- Modelled from the spec: a status-only patch.  Valid transitions are
`queued→active` (required-on-activate attributes must be non-null,
test_artifact_activate line 1185; owner or admin), `active→deactivated`
and `deactivated→active` (admin only); every other requested transition is
BadRequest (deactivating a queued artifact: test_artifact_deactivate line
1360). -/
def statusChange (s : State) (c : Caller) (a : Artifact) (st : Status) : Nat × State :=
  match a.status, st with
  | .queued, .active =>
      if a.string_required = none then (400, s)
      else if c.isAdmin || decide (c.tenant = some a.owner) then
        (200, setArt s a.id { a with status := .active })
      else (403, s)
  | .active, .deactivated =>
      if c.isAdmin then (200, setArt s a.id { a with status := .deactivated })
      else (403, s)
  | .deactivated, .active =>
      if c.isAdmin then (200, setArt s a.id { a with status := .active })
      else (403, s)
  | _, _ => (400, s)

/-- Modelled from the spec: a visibility-only patch (publish).  Permitted
only from `active` (queued: test_artifact_publish line 1248, deactivated:
lines 1252-1254 — 400), only to admins, and only when no other non-deleted
public artifact holds the same `(type, name, version)` (409, lines
1242-1251); public artifacts cannot return to private. -/
def visibilityChange (s : State) (c : Caller) (a : Artifact) (vis : Visibility) :
    Nat × State :=
  match vis with
  | .pub =>
      if a.status ≠ .active then (400, s)
      else if ¬c.isAdmin then (403, s)
      else if pubConflict s.arts a.id a.typeName a.name a.version then (409, s)
      else (200, setArt s a.id { a with visibility := .pub })
  | .priv => (400, s)

/-- Modelled from the spec: a patch whose effective changes do not touch
status or visibility.  `name` is immutable after creation (403); `version`
may only change while queued (immutable after first activation) and is
subject to the private-scope uniqueness check (409); on an active or
deactivated artifact only mutable attributes may change
(test_artifact_lifecycle lines 297-308), and when the artifact is public
or deactivated only an admin may change them
(test_artifact_update_after_activate_and_publish lines 1279-1295). -/
def regularUpdate (s : State) (c : Caller) (a a' : Artifact) : Nat × State :=
  let ch := changedFields a a'
  if "name" ∈ ch then (403, s)
  else if "version" ∈ ch ∧ a.status ≠ .queued then (403, s)
  else if a.status = .active ∨ a.status = .deactivated then
    if ¬(∀ f ∈ ch, isMutable f = true) then (403, s)
    else if (a.visibility = .pub ∨ a.status = .deactivated) ∧ ¬c.isAdmin then (403, s)
    else (200, setArt s a.id a')
  else
    if "version" ∈ ch ∧
        privConflict s.arts (some a.id) a'.typeName a'.name a'.version a'.owner then
      (409, s)
    else (200, setArt s a.id a')

/-- Modelled from the spec: PATCH of an artifact.  The artifact must be
visible to the caller (404 otherwise); the operations are applied to an
in-memory view (invalid values: 400); a patch with no effective change is
an idempotent no-op (200, test_artifact_activate lines 1210-1211); a
status or visibility change mixed with any other effective change is
rejected (400, lines 1192-1196); otherwise the request is dispatched to
the status, visibility or regular-update path. -/
def patchArt (s : State) (c : Caller) (aid : Nat) (ops : List PatchOp) : Nat × State :=
  match lookupArt s aid with
  | none => (404, s)
  | some a =>
    if visibleTo c a then
      match applyOps a ops with
      | none => (400, s)
      | some a' =>
        let ch := changedFields a a'
        if ch = [] then (200, s)
        else if "status" ∈ ch ∨ "visibility" ∈ ch then
          if ch.length > 1 then (400, s)
          else if "status" ∈ ch then statusChange s c a a'.status
          else visibilityChange s c a a'.visibility
        else regularUpdate s c a a'
    else (404, s)

/-- Modelled from the spec: DELETE of an artifact.  Anonymous callers are
denied; invisible artifacts yield the absence signal 404
(test_artifact_delete lines 1321-1323); a public artifact may only be
deleted by an admin (lines 1329-1343); deletion moves the status to
`deleted`. -/
def deleteArt (s : State) (c : Caller) (aid : Nat) : Nat × State :=
  if c.tenant = none then (403, s)
  else
    match lookupArt s aid with
    | none => (404, s)
    | some a =>
      if visibleTo c a then
        if a.visibility = .pub ∧ ¬c.isAdmin then (403, s)
        else (204, setArt s a.id { a with status := .deleted })
      else (404, s)

/-- Modelled from the spec: blob upload (PUT of octet-stream bytes).  The
artifact must be visible to the caller (404 for foreign private artifacts,
test_upload_blob lines 1415-1418); uploads to public artifacts are
admin-only (403); a slot that already holds data yields 409 (lines
1430-1437); otherwise the slot becomes `active` with the uploaded size. -/
def uploadBlob (s : State) (c : Caller) (aid : Nat) (size : Nat) : Nat × State :=
  match lookupArt s aid with
  | none => (404, s)
  | some a =>
    if visibleTo c a then
      if a.visibility = .pub ∧ ¬c.isAdmin then (403, s)
      else
        match a.blob with
        | some _ => (409, s)
        | none =>
          (200, setArt s a.id { a with blob := some ⟨size, .active, false⟩ })
    else (404, s)

/-- Modelled from the spec: registration of an external blob location (PUT
with the custom-location content type).  Same gating as `uploadBlob`; an
occupied slot yields 409 (test_add_custom_location lines 771-772); the
probed metadata is recorded with `external = true`. -/
def addLocation (s : State) (c : Caller) (aid : Nat) (probedSize : Nat) : Nat × State :=
  match lookupArt s aid with
  | none => (404, s)
  | some a =>
    if visibleTo c a then
      if a.visibility = .pub ∧ ¬c.isAdmin then (403, s)
      else
        match a.blob with
        | some _ => (409, s)
        | none =>
          (200, setArt s a.id { a with blob := some ⟨probedSize, .active, true⟩ })
    else (404, s)

/-- Modelled from the spec: blob download (GET of the blob path).  404 when
the artifact is not visible; deactivated artifacts are downloadable by
admins only (test_artifact_lifecycle lines 321-323); a slot without
finalized data is BadRequest (test_download_blob lines 1456-1458); a slot
is downloadable iff its status is `active`. -/
def downloadBlob (s : State) (c : Caller) (aid : Nat) : Nat :=
  match lookupArt s aid with
  | none => 404
  | some a =>
    if visibleTo c a then
      if a.status = .deactivated ∧ ¬c.isAdmin then 403
      else
        match a.blob with
        | none => 400
        | some b => if b.bstatus = .active then 200 else 400
    else 404

/-- Intrinsic (base) artifact attributes, which the persistence gateway can
sort on directly. -/
def BASE_ATTRS : List String :=
  ["id", "name", "version", "owner", "visibility", "status",
   "created_at", "updated_at", "activated_at", "description"]

/-- The sortable custom attributes of `sample_artifact`
(sample_artifact.py: the fields declared `sortable=True`). -/
def SORTABLE_CUSTOM_ATTRS : List String :=
  ["int1", "int2", "float1", "float2", "str1", "system_attribute"]

/-- A sort direction is `asc` or `desc`. -/
def validSortDir (d : String) : Bool := decide (d = "asc") || decide (d = "desc")

/-- A sort key that is not an intrinsic attribute (it requires a join on
the properties table). -/
def isCustomSortKey (k : String) : Bool := decide (k ∉ BASE_ATTRS)

/-- Modelled from the spec: validation of the `sort` parameter of a list
request.  Every key must be an intrinsic attribute or a sortable custom
attribute with a valid direction; at most one custom sort key is allowed —
the functional tests reject a sort naming the two custom keys `float1` and
`int1` ("Sorting by several custom columns leads to 400 error",
test_artifact_marker_and_limit lines 384-386) while accepting a single
custom key next to `name` (lines 388-390, test_artifact_sorted lines
2136-2140).  Returns the HTTP status code of the list request. -/
def listArtifactsCode (ks : List (String × String)) : Nat :=
  if (∀ p ∈ ks, validSortDir p.2 = true ∧
        (p.1 ∈ BASE_ATTRS ∨ p.1 ∈ SORTABLE_CUSTOM_ATTRS)) then
    if (ks.filter (fun p => isCustomSortKey p.1)).length ≤ 1 then 200 else 400
  else 400

/-- An API request (reads keep the state unchanged). -/
inductive Request where
  | create (c : Caller) (d : CreateData)
  | patch (c : Caller) (aid : Nat) (ops : List PatchOp)
  | del (c : Caller) (aid : Nat)
  | upload (c : Caller) (aid : Nat) (size : Nat)
  | addLoc (c : Caller) (aid : Nat) (size : Nat)
  | get (c : Caller) (aid : Nat)
  | download (c : Caller) (aid : Nat)
  | list (sortq : List (String × String))
deriving DecidableEq, Repr

/-- The state after one request. -/
def stepReq (s : State) : Request → State
  | .create c d => (createArt s c d).2
  | .patch c aid ops => (patchArt s c aid ops).2
  | .del c aid => (deleteArt s c aid).2
  | .upload c aid sz => (uploadBlob s c aid sz).2
  | .addLoc c aid sz => (addLocation s c aid sz).2
  | .get _ _ => s
  | .download _ _ => s
  | .list _ => s

/-- The state after a sequence of requests. -/
def exec (s : State) : List Request → State
  | [] => s
  | r :: rs => exec (stepReq s r) rs

/-! ## Service entry point (`glare/cmd/api.py`) -/

/-- The exception types of the `KNOWN_EXCEPTIONS` tuple in
`glare/cmd/api.py` lines 50-52: `RuntimeError`,
`exception.WorkerCreationFailure`,
`glance_store.exceptions.BadStoreConfiguration`. -/
inductive KnownException where
  | runtimeError
  | workerCreationFailure
  | badStoreConfiguration
deriving DecidableEq, Repr

/-- `KNOWN_EXCEPTIONS` (`glare/cmd/api.py` lines 50-52), in source
order. -/
def KNOWN_EXCEPTIONS : List KnownException :=
  [.runtimeError, .workerCreationFailure, .badStoreConfiguration]

/-- `fail` (`glare/cmd/api.py` lines 55-59):
`return_code = KNOWN_EXCEPTIONS.index(type(e)) + 1; sys.exit(return_code)`. -/
def failReturnCode (e : KnownException) : Nat :=
  KNOWN_EXCEPTIONS.findIdx (fun x => decide (x = e)) + 1

/-- `main` (`glare/cmd/api.py` lines 62-80): runs the server; a known
startup exception reaches `fail` and exits with its return code, a clean
shutdown falls off the end of `main` and the process exits 0. -/
def mainExitCode : Option KnownException → Nat
  | none => 0
  | some e => failReturnCode e

/-! ## The uniqueness invariant -/

/-- The name/version uniqueness relation between two stored artifacts, as
the database constraints enforce it: no two non-deleted private artifacts
share `(type, name, version, owner)`, and no two non-deleted public
artifacts share `(type, name, version)`. -/
def noConflict (a b : Artifact) : Prop :=
  (a.status ≠ .deleted → b.status ≠ .deleted → a.visibility = .priv →
    b.visibility = .priv → a.typeName = b.typeName → a.name = b.name →
    a.version = b.version → a.owner = b.owner → False) ∧
  (a.status ≠ .deleted → b.status ≠ .deleted → a.visibility = .pub →
    b.visibility = .pub → a.typeName = b.typeName → a.name = b.name →
    a.version = b.version → False)

/-- The state invariant: artifact ids are pairwise distinct and below the
id counter, queued artifacts are private (visibility `public` is only
reachable from `active`), and the uniqueness relation holds pairwise. -/
def Inv (s : State) : Prop :=
  s.arts.Pairwise (fun x y => x.id ≠ y.id) ∧
  (∀ a ∈ s.arts, a.id < s.nextId) ∧
  (∀ a ∈ s.arts, a.status = .queued → a.visibility = .priv) ∧
  s.arts.Pairwise noConflict

theorem noConflict_symm {a b : Artifact} (h : noConflict a b) : noConflict b a := by
  refine ⟨fun h1 h2 h3 h4 h5 h6 h7 h8 => ?_, fun h1 h2 h3 h4 h5 h6 h7 => ?_⟩
  · exact h.1 h2 h1 h4 h3 h5.symm h6.symm h7.symm h8.symm
  · exact h.2 h2 h1 h4 h3 h5.symm h6.symm h7.symm

theorem noConflict_congr {a a' b : Artifact}
    (hdel : (a'.status = .deleted) ↔ (a.status = .deleted))
    (hvis : a'.visibility = a.visibility) (hty : a'.typeName = a.typeName)
    (hnm : a'.name = a.name) (hver : a'.version = a.version)
    (hown : a'.owner = a.owner) (h : noConflict a b) : noConflict a' b := by
  refine ⟨fun h1 h2 h3 h4 h5 h6 h7 h8 => ?_, fun h1 h2 h3 h4 h5 h6 h7 => ?_⟩
  · exact h.1 (fun hd => h1 (hdel.mpr hd)) h2 (hvis ▸ h3) h4 (hty ▸ h5)
      (hnm ▸ h6) (hver ▸ h7) (hown ▸ h8)
  · exact h.2 (fun hd => h1 (hdel.mpr hd)) h2 (hvis ▸ h3) h4 (hty ▸ h5)
      (hnm ▸ h6) (hver ▸ h7)

theorem noConflict_of_deleted {a b : Artifact} (h : a.status = .deleted) :
    noConflict a b :=
  ⟨fun h1 _ _ _ _ _ _ _ => absurd h h1, fun h1 _ _ _ _ _ _ => absurd h h1⟩

theorem noConflict_of_priv {a' b : Artifact} (hvis : a'.visibility = .priv)
    (h : b.status ≠ .deleted → b.visibility = .priv → b.typeName = a'.typeName →
      b.name = a'.name → b.version = a'.version → b.owner = a'.owner → False) :
    noConflict a' b := by
  refine ⟨fun _ h2 _ h4 h5 h6 h7 h8 => ?_, fun _ _ h3 _ _ _ _ => ?_⟩
  · exact h h2 h4 h5.symm h6.symm h7.symm h8.symm
  · rw [hvis] at h3; cases h3

theorem noConflict_of_pub {a' b : Artifact} (hvis : a'.visibility = .pub)
    (h : b.status ≠ .deleted → b.visibility = .pub → b.typeName = a'.typeName →
      b.name = a'.name → b.version = a'.version → False) :
    noConflict a' b := by
  refine ⟨fun _ _ h3 _ _ _ _ _ => ?_, fun _ h2 _ h4 h5 h6 h7 => ?_⟩
  · rw [hvis] at h3; cases h3
  · exact h h2 h4 h5.symm h6.symm h7.symm

theorem pairwise_forall_ids {l : List Artifact}
    (hpw : l.Pairwise noConflict) (hids : l.Pairwise (fun x y => x.id ≠ y.id)) :
    ∀ a ∈ l, ∀ b ∈ l, b.id ≠ a.id → noConflict a b := by
  induction l with
  | nil => intro a ha; cases ha
  | cons x xs ih =>
    rw [List.pairwise_cons] at hpw hids
    intro a ha b hb hne
    rcases List.mem_cons.mp ha with rfl | ha' <;>
      rcases List.mem_cons.mp hb with rfl | hb'
    · exact absurd rfl hne
    · exact hpw.1 b hb'
    · exact noConflict_symm (hpw.1 a ha')
    · exact ih hpw.2 hids.2 a ha' b hb' hne

theorem pairwise_noConflict_map {l : List Artifact} {aid : Nat} {a' : Artifact}
    (hpw : l.Pairwise noConflict) (hids : l.Pairwise (fun x y => x.id ≠ y.id))
    (hnc : ∀ b ∈ l, b.id ≠ aid → noConflict a' b) :
    (l.map (fun b => if b.id = aid then a' else b)).Pairwise noConflict := by
  induction l with
  | nil => simp
  | cons x xs ih =>
    rw [List.pairwise_cons] at hpw hids
    rw [List.map_cons, List.pairwise_cons]
    refine ⟨?_, ih hpw.2 hids.2 (fun b hb hbne => hnc b (List.mem_cons_of_mem x hb) hbne)⟩
    intro y hy
    obtain ⟨b, hb, rfl⟩ := List.mem_map.mp hy
    by_cases hx : x.id = aid
    · have hbne : b.id ≠ aid := fun hcon => hids.1 b hb (hx.trans hcon.symm)
      simp only [if_pos hx, if_neg hbne]
      exact hnc b (List.mem_cons_of_mem x hb) hbne
    · by_cases hbid : b.id = aid
      · simp only [if_neg hx, if_pos hbid]
        exact noConflict_symm (hnc x (List.mem_cons_self x xs) hx)
      · simp only [if_neg hx, if_neg hbid]
        exact hpw.1 b hb

theorem lookupArt_mem {s : State} {aid : Nat} {a : Artifact}
    (h : lookupArt s aid = some a) : a ∈ s.arts ∧ a.id = aid := by
  unfold lookupArt at h
  refine ⟨List.mem_of_find?_eq_some h, ?_⟩
  have := List.find?_some h
  exact of_decide_eq_true this

theorem find?_map_ite (l : List Artifact) (aid : Nat) (a' : Artifact)
    (hid : a'.id = aid) :
    (l.map (fun b => if b.id = aid then a' else b)).find? (fun b => b.id = aid)
      = (l.find? (fun b => b.id = aid)).map (fun _ => a') := by
  induction l with
  | nil => rfl
  | cons x xs ih =>
    by_cases hx : x.id = aid
    · simp [List.find?_cons, hx, hid]
    · simp [List.find?_cons, hx, ih]

theorem lookupArt_setArt (s : State) (aid : Nat) (a' : Artifact)
    (hid : a'.id = aid) :
    lookupArt (setArt s aid a') aid = (lookupArt s aid).map (fun _ => a') := by
  unfold lookupArt setArt
  exact find?_map_ite s.arts aid a' hid

theorem inv_setArt {s : State} {a' : Artifact} (aid : Nat)
    (hInv : Inv s) (haid : a'.id = aid)
    (hqp : a'.status = .queued → a'.visibility = .priv)
    (hnc : ∀ b ∈ s.arts, b.id ≠ aid → noConflict a' b) :
    Inv (setArt s aid a') := by
  obtain ⟨hids, hbnd, hqps, hpw⟩ := hInv
  have hidf : ∀ b : Artifact,
      ((fun b => if b.id = aid then a' else b) b).id = b.id := by
    intro b
    by_cases hb : b.id = aid
    · simp [hb, haid]
    · simp [hb]
  refine ⟨?_, ?_, ?_, ?_⟩
  · rw [setArt, List.pairwise_map]
    exact hids.imp (fun hxy => by simpa [hidf] using hxy)
  · intro b' hb'
    obtain ⟨b, hb, rfl⟩ := List.mem_map.mp hb'
    rw [hidf]
    exact hbnd b hb
  · intro b' hb' hst
    obtain ⟨b, hb, rfl⟩ := List.mem_map.mp hb'
    by_cases hbid : b.id = aid
    · simp only [if_pos hbid] at hst ⊢
      exact hqp hst
    · simp only [if_neg hbid] at hst ⊢
      exact hqps b hb hst
  · exact pairwise_noConflict_map hpw hids hnc

theorem name_mem_changedFields (a b : Artifact) :
    ("name" ∈ changedFields a b) ↔ a.name ≠ b.name := by
  simp [changedFields, FIELDS, List.mem_filter, fieldChanged]

theorem version_mem_changedFields (a b : Artifact) :
    ("version" ∈ changedFields a b) ↔ a.version ≠ b.version := by
  simp [changedFields, FIELDS, List.mem_filter, fieldChanged]

theorem visibility_mem_changedFields (a b : Artifact) :
    ("visibility" ∈ changedFields a b) ↔ a.visibility ≠ b.visibility := by
  simp [changedFields, FIELDS, List.mem_filter, fieldChanged]

theorem status_mem_changedFields (a b : Artifact) :
    ("status" ∈ changedFields a b) ↔ a.status ≠ b.status := by
  simp [changedFields, FIELDS, List.mem_filter, fieldChanged]

theorem changedFields_self (a : Artifact) : changedFields a a = [] := by
  simp [changedFields, FIELDS, fieldChanged]

theorem changedFields_status_eq (a : Artifact) (st : Status) (h : a.status ≠ st) :
    changedFields a { a with status := st } = ["status"] := by
  simp [changedFields, FIELDS, fieldChanged, h]

theorem changedFields_vis_eq (a : Artifact) (vis : Visibility)
    (h : a.visibility ≠ vis) :
    changedFields a { a with visibility := vis } = ["visibility"] := by
  simp [changedFields, FIELDS, fieldChanged, h]

theorem changedFields_strMut_eq (a : Artifact) (v : String)
    (h : a.string_mutable ≠ some v) :
    changedFields a { a with string_mutable := some v } = ["string_mutable"] := by
  simp [changedFields, FIELDS, fieldChanged, h]

theorem applyOp_const {a b : Artifact} {op : PatchOp} (h : applyOp a op = some b) :
    b.id = a.id ∧ b.typeName = a.typeName ∧ b.owner = a.owner ∧ b.blob = a.blob := by
  cases op <;> simp only [applyOp, Option.map_eq_some'] at h
  case setStatus v =>
    obtain ⟨st, _, rfl⟩ := h; exact ⟨rfl, rfl, rfl, rfl⟩
  case setVisibility v =>
    obtain ⟨vis, _, rfl⟩ := h; exact ⟨rfl, rfl, rfl, rfl⟩
  case setName v =>
    split at h
    · cases h
    · cases h; exact ⟨rfl, rfl, rfl, rfl⟩
  case setVersion v =>
    obtain ⟨ver, _, rfl⟩ := h; exact ⟨rfl, rfl, rfl, rfl⟩
  case setDescription v => cases h; exact ⟨rfl, rfl, rfl, rfl⟩
  case setStringMutable v => cases h; exact ⟨rfl, rfl, rfl, rfl⟩
  case setStringRequired v => cases h; exact ⟨rfl, rfl, rfl, rfl⟩
  case setStr1 v => cases h; exact ⟨rfl, rfl, rfl, rfl⟩

theorem applyOps_const {a b : Artifact} {ops : List PatchOp}
    (h : applyOps a ops = some b) :
    b.id = a.id ∧ b.typeName = a.typeName ∧ b.owner = a.owner ∧ b.blob = a.blob := by
  induction ops generalizing a with
  | nil => cases h; exact ⟨rfl, rfl, rfl, rfl⟩
  | cons op rest ih =>
    rw [applyOps] at h
    cases hop : applyOp a op with
    | none => rw [hop] at h; cases h
    | some m =>
      rw [hop] at h
      obtain ⟨h1, h2, h3, h4⟩ := ih h
      obtain ⟨g1, g2, g3, g4⟩ := applyOp_const hop
      exact ⟨h1.trans g1, h2.trans g2, h3.trans g3, h4.trans g4⟩

theorem applyOps_deleting {a : Artifact} {ops : List PatchOp}
    (h : PatchOp.setStatus "deleting" ∈ ops) : applyOps a ops = none := by
  induction ops generalizing a with
  | nil => cases h
  | cons op rest ih =>
    rcases List.mem_cons.mp h with rfl | hmem
    · rfl
    · rw [applyOps]
      cases hop : applyOp a op with
      | none => rfl
      | some m => exact ih hmem

theorem privConflict_false {l : List Artifact} {excl : Option Nat}
    {ty nm : String} {ver : SemVer} {o : String}
    (h : privConflict l excl ty nm ver o = false) :
    ∀ b ∈ l, excl ≠ some b.id → b.status ≠ .deleted → b.visibility = .priv →
      b.typeName = ty → b.name = nm → b.version = ver → b.owner = o → False := by
  intro b hb h1 h2 h3 h4 h5 h6 h7
  rw [privConflict, List.any_eq_false] at h
  have hc := h b hb
  simp only [Bool.and_eq_true, decide_eq_true_eq, not_and] at hc
  exact hc ⟨⟨⟨⟨⟨h1, h2⟩, h3⟩, h4⟩, h5⟩, h6⟩ h7

theorem pubConflict_false {l : List Artifact} {excl : Nat}
    {ty nm : String} {ver : SemVer}
    (h : pubConflict l excl ty nm ver = false) :
    ∀ b ∈ l, b.id ≠ excl → b.status ≠ .deleted → b.visibility = .pub →
      b.typeName = ty → b.name = nm → b.version = ver → False := by
  intro b hb h1 h2 h3 h4 h5 h6
  rw [pubConflict, List.any_eq_false] at h
  have hc := h b hb
  simp only [Bool.and_eq_true, decide_eq_true_eq, not_and] at hc
  exact hc ⟨⟨⟨⟨h1, h2⟩, h3⟩, h4⟩, h5⟩ h6

theorem inv_createArt (s : State) (c : Caller) (d : CreateData) (h : Inv s) :
    Inv (createArt s c d).2 := by
  have hInv := h
  obtain ⟨hids, hbnd, hqp, hpw⟩ := h
  unfold createArt
  split
  · exact hInv
  next t _ =>
    split
    · exact hInv
    split
    · exact hInv
    split
    · exact hInv
    next nm =>
      split
      · exact hInv
      split
      · exact hInv
      next ver _ =>
        split
        · exact hInv
        next hconf =>
          rw [Bool.not_eq_true] at hconf
          refine ⟨?_, ?_, ?_, ?_⟩
          · rw [List.pairwise_cons]
            refine ⟨fun b hb heq => ?_, hids⟩
            exact absurd (heq ▸ hbnd b hb) (lt_irrefl _)
          · intro b hb
            rcases List.mem_cons.mp hb with rfl | hb'
            · exact Nat.lt_succ_self _
            · exact Nat.lt_succ_of_lt (hbnd b hb')
          · intro b hb hst
            rcases List.mem_cons.mp hb with rfl | hb'
            · rfl
            · exact hqp b hb' hst
          · rw [List.pairwise_cons]
            refine ⟨fun b hb => ?_, hpw⟩
            refine noConflict_of_priv rfl (fun g1 g2 g3 g4 g5 g6 => ?_)
            exact privConflict_false hconf b hb (by simp) g1 g2 g3 g4 g5 g6

theorem noConflict_all_of_congr {s : State} {a a' : Artifact}
    (hInv : Inv s) (ha : a ∈ s.arts)
    (hdel : (a'.status = .deleted) ↔ (a.status = .deleted))
    (hvis : a'.visibility = a.visibility) (hty : a'.typeName = a.typeName)
    (hnm : a'.name = a.name) (hver : a'.version = a.version)
    (hown : a'.owner = a.owner) :
    ∀ b ∈ s.arts, b.id ≠ a.id → noConflict a' b := by
  intro b hb hne
  exact noConflict_congr hdel hvis hty hnm hver hown
    (pairwise_forall_ids hInv.2.2.2 hInv.1 a ha b hb hne)

theorem inv_statusChange {s : State} {c : Caller} {a : Artifact} {st : Status}
    (hInv : Inv s) (ha : a ∈ s.arts) : Inv (statusChange s c a st).2 := by
  have hSucc : ∀ st' : Status, st' ≠ .deleted → st' ≠ .queued → a.status ≠ .deleted →
      Inv (setArt s a.id { a with status := st' }) := by
    intro st' h1 hq h2
    refine inv_setArt a.id hInv rfl (fun h => absurd h hq) ?_
    exact noConflict_all_of_congr hInv ha (by simp [h1, h2]) rfl rfl rfl rfl rfl
  unfold statusChange
  cases hst : a.status <;> cases st <;> dsimp only <;> (try exact hInv)
  · split
    · exact hInv
    split
    · exact hSucc .active (by simp) (by simp) (by simp [hst])
    · exact hInv
  · split
    · exact hSucc .deactivated (by simp) (by simp) (by simp [hst])
    · exact hInv
  · split
    · exact hSucc .active (by simp) (by simp) (by simp [hst])
    · exact hInv

theorem inv_visibilityChange {s : State} {c : Caller} {a : Artifact} {vis : Visibility}
    (hInv : Inv s) : Inv (visibilityChange s c a vis).2 := by
  unfold visibilityChange
  cases vis <;> dsimp only
  · exact hInv
  · split
    · exact hInv
    next hact =>
      rw [not_not] at hact
      split
      · exact hInv
      split
      · exact hInv
      next hconf =>
        rw [Bool.not_eq_true] at hconf
        refine inv_setArt a.id hInv rfl ?_ ?_
        · intro h
          rw [show ({a with visibility := Visibility.pub} : Artifact).status = a.status from rfl, hact] at h
          cases h
        · intro b hb hne
          refine noConflict_of_pub rfl (fun g1 g2 g3 g4 g5 => ?_)
          exact pubConflict_false hconf b hb (fun hcon => hne hcon) g1 g2 g3 g4 g5

theorem inv_regularUpdate {s : State} {c : Caller} {a a2 : Artifact}
    (hInv : Inv s) (ha : a ∈ s.arts)
    (hid : a2.id = a.id) (hty : a2.typeName = a.typeName) (hown : a2.owner = a.owner)
    (hst : a2.status = a.status) (hvis : a2.visibility = a.visibility) :
    Inv (regularUpdate s c a a2).2 := by
  unfold regularUpdate
  dsimp only
  split
  · exact hInv
  next hname =>
    have hnm : a2.name = a.name := by
      have := (name_mem_changedFields a a2).not.mp hname
      rw [not_not] at this
      exact this.symm
    split
    · exact hInv
    next hverg =>
      split
      next hact =>
        split
        · exact hInv
        next hmut =>
          rw [not_not] at hmut
          split
          · exact hInv
          · have hver : a2.version = a.version := by
              by_cases hv : "version" ∈ changedFields a a2
              · exact absurd (hmut "version" hv) (by simp [isMutable])
              · have := (version_mem_changedFields a a2).not.mp hv
                rw [not_not] at this
                exact this.symm
            refine inv_setArt a.id hInv hid ?_ ?_
            · intro h
              rw [hst] at h
              rcases hact with h2 | h2 <;> rw [h2] at h <;> cases h
            · exact noConflict_all_of_congr hInv ha (by rw [hst]) hvis hty hnm hver hown
      next hnact =>
        split
        next hvq => exact hInv
        next hvq =>
          cases hstq : a.status with
          | active => exact absurd (Or.inl hstq) hnact
          | deactivated => exact absurd (Or.inr hstq) hnact
          | deleted =>
            refine inv_setArt a.id hInv hid ?_ ?_
            · intro h
              rw [hst, hstq] at h
              cases h
            · intro b hb hne
              exact noConflict_of_deleted (by rw [hst, hstq])
          | queued =>
            by_cases hv : "version" ∈ changedFields a a2
            · have hconf : privConflict s.arts (some a.id) a2.typeName a2.name a2.version a2.owner = false := by
                rcases h : privConflict s.arts (some a.id) a2.typeName a2.name a2.version a2.owner with _ | _
                · rfl
                · exact absurd ⟨hv, h⟩ hvq
              have hpriv : a2.visibility = .priv := by
                rw [hvis]
                exact hInv.2.2.1 a ha hstq
              refine inv_setArt a.id hInv hid ?_ ?_
              · intro _; exact hpriv
              · intro b hb hne
                refine noConflict_of_priv hpriv (fun g1 g2 g3 g4 g5 g6 => ?_)
                exact privConflict_false hconf b hb (fun hcon => hne (Option.some.inj hcon).symm) g1 g2 g3 g4 g5 g6
            · have hver : a2.version = a.version := by
                have := (version_mem_changedFields a a2).not.mp hv
                rw [not_not] at this
                exact this.symm
              refine inv_setArt a.id hInv hid ?_ ?_
              · intro h
                rw [hvis]
                exact hInv.2.2.1 a ha (hst ▸ h)
              · exact noConflict_all_of_congr hInv ha (by rw [hst]) hvis hty hnm hver hown

theorem inv_patchArt (s : State) (c : Caller) (aid : Nat) (ops : List PatchOp)
    (hInv : Inv s) : Inv (patchArt s c aid ops).2 := by
  unfold patchArt
  cases hl : lookupArt s aid with
  | none => exact hInv
  | some a =>
    obtain ⟨ha, haid⟩ := lookupArt_mem hl
    dsimp only
    split
    · cases hops : applyOps a ops with
      | none => exact hInv
      | some a2 =>
        dsimp only
        split
        · exact hInv
        split
        · split
          · exact hInv
          split
          · exact inv_statusChange hInv ha
          · exact inv_visibilityChange hInv
        next hnsv =>
          obtain ⟨hid2, hty2, hown2, _⟩ := applyOps_const hops
          have hst2 : a2.status = a.status := by
            have := (status_mem_changedFields a a2).not.mp (fun hmem => hnsv (Or.inl hmem))
            rw [not_not] at this
            exact this.symm
          have hvis2 : a2.visibility = a.visibility := by
            have := (visibility_mem_changedFields a a2).not.mp (fun hmem => hnsv (Or.inr hmem))
            rw [not_not] at this
            exact this.symm
          exact inv_regularUpdate hInv ha hid2 hty2 hown2 hst2 hvis2
    · exact hInv

theorem inv_deleteArt (s : State) (c : Caller) (aid : Nat) (hInv : Inv s) :
    Inv (deleteArt s c aid).2 := by
  unfold deleteArt
  split
  · exact hInv
  · cases hl : lookupArt s aid with
    | none => exact hInv
    | some a =>
      dsimp only
      split
      · split
        · exact hInv
        · refine inv_setArt a.id hInv rfl ?_ ?_
          · intro h; cases h
          · intro b hb hne
            exact noConflict_of_deleted rfl
      · exact hInv

theorem inv_uploadBlob (s : State) (c : Caller) (aid : Nat) (sz : Nat)
    (hInv : Inv s) : Inv (uploadBlob s c aid sz).2 := by
  unfold uploadBlob
  cases hl : lookupArt s aid with
  | none => exact hInv
  | some a =>
    obtain ⟨ha, haid⟩ := lookupArt_mem hl
    dsimp only
    split
    · split
      · exact hInv
      · cases hb : a.blob with
        | some bl => exact hInv
        | none =>
          refine inv_setArt a.id hInv rfl ?_ ?_
          · intro h
            exact hInv.2.2.1 a ha h
          · exact noConflict_all_of_congr hInv ha Iff.rfl rfl rfl rfl rfl rfl
    · exact hInv

theorem inv_addLocation (s : State) (c : Caller) (aid : Nat) (sz : Nat)
    (hInv : Inv s) : Inv (addLocation s c aid sz).2 := by
  unfold addLocation
  cases hl : lookupArt s aid with
  | none => exact hInv
  | some a =>
    obtain ⟨ha, haid⟩ := lookupArt_mem hl
    dsimp only
    split
    · split
      · exact hInv
      · cases hb : a.blob with
        | some bl => exact hInv
        | none =>
          refine inv_setArt a.id hInv rfl ?_ ?_
          · intro h
            exact hInv.2.2.1 a ha h
          · exact noConflict_all_of_congr hInv ha Iff.rfl rfl rfl rfl rfl rfl
    · exact hInv

theorem inv_stepReq (s : State) (r : Request) (hInv : Inv s) : Inv (stepReq s r) := by
  cases r with
  | create c d => exact inv_createArt s c d hInv
  | patch c aid ops => exact inv_patchArt s c aid ops hInv
  | del c aid => exact inv_deleteArt s c aid hInv
  | upload c aid sz => exact inv_uploadBlob s c aid sz hInv
  | addLoc c aid sz => exact inv_addLocation s c aid sz hInv
  | get c aid => exact hInv
  | download c aid => exact hInv
  | list q => exact hInv

theorem inv_exec (s : State) (reqs : List Request) (hInv : Inv s) :
    Inv (exec s reqs) := by
  induction reqs generalizing s with
  | nil => exact hInv
  | cons r rs ih => exact ih _ (inv_stepReq s r hInv)

theorem inv_initState : Inv initState := by
  refine ⟨List.Pairwise.nil, ?_, ?_, List.Pairwise.nil⟩ <;> intro a ha <;> cases ha

/-! ## Concrete fixtures for witnesses and counterexamples -/

/-- A plain (non-admin) caller of tenant `t1`, like `user1` of the
functional tests. -/
def tenant1 : Caller := ⟨some "t1", false⟩

/-- A plain caller of a second tenant, like `user2`. -/
def tenant2 : Caller := ⟨some "t2", false⟩

/-- An admin caller. -/
def adminCaller : Caller := ⟨some "ta", true⟩

/-- An anonymous caller. -/
def anonCaller : Caller := ⟨none, false⟩

/-- A create body with the given name, no version, and the
required-on-activate attribute set. -/
def mkCreate (nm : String) : CreateData :=
  ⟨some nm, none, none, none, none, none, some "req", none⟩

/-- The one-artifact state reached by `tenant1` creating artifact "a". -/
def oneArtState : State := (createArt initState tenant1 (mkCreate "a")).2

/-- The state after `tenant1` additionally activated artifact 0. -/
def activeState : State := (patchArt oneArtState tenant1 0 [.setStatus "active"]).2

/-- The state after the admin additionally published artifact 0. -/
def publicState : State := (patchArt activeState adminCaller 0 [.setVisibility "public"]).2

/-! ## Claim theorems -/

/-- C6: the service entry point exits with code 0 on clean shutdown, and a
known startup exception exits with its index in `KNOWN_EXCEPTIONS` plus
one — 1, 2 and 3 for `RuntimeError`, `WorkerCreationFailure` and
`BadStoreConfiguration` respectively — pairwise distinct and nonzero. -/
theorem C6_exit_codes :
    mainExitCode none = 0 ∧
    mainExitCode (some .runtimeError) = failReturnCode .runtimeError ∧
    mainExitCode (some .workerCreationFailure) = failReturnCode .workerCreationFailure ∧
    mainExitCode (some .badStoreConfiguration) = failReturnCode .badStoreConfiguration ∧
    failReturnCode .runtimeError = 1 ∧
    failReturnCode .workerCreationFailure = 2 ∧
    failReturnCode .badStoreConfiguration = 3 ∧
    (∀ e e2 : KnownException, e ≠ e2 → failReturnCode e ≠ failReturnCode e2) ∧
    (∀ e : KnownException, failReturnCode e ≠ 0) := by
  refine ⟨rfl, rfl, rfl, rfl, rfl, rfl, rfl, ?_, ?_⟩
  · intro e e2 h
    cases e <;> cases e2 <;> first | exact absurd rfl h | decide
  · intro e
    cases e <;> decide

/-- Witness for C6: the two known startup failures beyond `RuntimeError`
get distinct exit codes. -/
theorem C6_exit_codes_witness :
    KnownException.workerCreationFailure ≠ KnownException.badStoreConfiguration ∧
    failReturnCode .workerCreationFailure ≠ failReturnCode .badStoreConfiguration :=
  ⟨by decide, C6_exit_codes.2.2.2.2.2.2.2.1 .workerCreationFailure
    .badStoreConfiguration (by decide)⟩

/-- C7 as stated is false: a create request that sets the `visibility`
attribute is rejected with 400 BadRequest, not 403 Forbidden
(test_create_artifact lines 974-976). -/
theorem C7_counterexample :
    (createArt initState tenant1
      ⟨some "x", none, some "private", none, none, none, none, none⟩).1 = 400 ∧
    (createArt initState tenant1
      ⟨some "x", none, some "private", none, none, none, none, none⟩).1 ≠ 403 := by
  decide

/-- C7 amended: a create request that sets a system attribute, or comes
from an anonymous caller, is rejected with 403 and no artifact is created;
a create request that sets the visibility attribute is rejected with 400
and no artifact is created. -/
theorem C7_create_rejections :
    (∀ s c d t, c.tenant = some t → d.visibility = none →
      d.system_attribute ≠ none → createArt s c d = (403, s)) ∧
    (∀ s c d, c.tenant = none → createArt s c d = (403, s)) ∧
    (∀ s c d t, c.tenant = some t → d.visibility ≠ none →
      createArt s c d = (400, s)) := by
  refine ⟨?_, ?_, ?_⟩
  · intro s c d t htc hvis hsys
    unfold createArt
    rw [htc]
    simp [hvis, hsys]
  · intro s c d htc
    unfold createArt
    rw [htc]
  · intro s c d t htc hvis
    unfold createArt
    rw [htc]
    simp [hvis]

/-- Witness for C7: concrete instances of the three rejections. -/
theorem C7_create_rejections_witness :
    createArt initState tenant1
      ⟨some "x", none, none, some "sys", none, none, none, none⟩ = (403, initState) ∧
    createArt initState anonCaller (mkCreate "x") = (403, initState) ∧
    createArt initState tenant1
      ⟨some "x", none, some "private", none, none, none, none, none⟩ = (400, initState) :=
  ⟨C7_create_rejections.1 initState tenant1 _ "t1" rfl rfl (by decide),
   C7_create_rejections.2.1 initState anonCaller (mkCreate "x") rfl,
   C7_create_rejections.2.2 initState tenant1 _ "t1" rfl (by decide)⟩

/-- C8 as stated is false: the sort `float1:asc,int1:asc,name:desc` has
exactly two non-name sort keys, yet the list request is rejected with 400
(test_artifact_marker_and_limit lines 384-386). -/
theorem C8_counterexample :
    (([("float1", "asc"), ("int1", "asc"), ("name", "desc")] :
        List (String × String)).filter (fun p => decide (p.1 ≠ "name"))).length = 2 ∧
    listArtifactsCode [("float1", "asc"), ("int1", "asc"), ("name", "desc")] = 400 := by
  decide

/-- C8 amended: a sort whose keys are all valid (intrinsic or sortable
custom attributes with a valid direction) and that names at most one
custom sort key is accepted; a sort naming two or more custom sort keys is
rejected with 400. -/
theorem C8_sort_keys :
    (∀ ks : List (String × String),
      (∀ p ∈ ks, validSortDir p.2 = true ∧
        (p.1 ∈ BASE_ATTRS ∨ p.1 ∈ SORTABLE_CUSTOM_ATTRS)) →
      (ks.filter (fun p => isCustomSortKey p.1)).length ≤ 1 →
      listArtifactsCode ks = 200) ∧
    (∀ ks : List (String × String),
      2 ≤ (ks.filter (fun p => isCustomSortKey p.1)).length →
      listArtifactsCode ks = 400) := by
  constructor
  · intro ks hvalid hcount
    unfold listArtifactsCode
    rw [if_pos hvalid, if_pos hcount]
  · intro ks hcount
    unfold listArtifactsCode
    split
    · rw [if_neg (by omega)]
    · rfl

/-- Witness for C8: one custom key next to `name` is accepted
(test_artifact_sorted lines 2136-2140); two custom keys are rejected. -/
theorem C8_sort_keys_witness :
    listArtifactsCode [("name", "asc"), ("int1", "desc")] = 200 ∧
    listArtifactsCode [("float1", "asc"), ("int1", "asc")] = 400 :=
  ⟨C8_sort_keys.1 [("name", "asc"), ("int1", "desc")] (by decide) (by decide),
   C8_sort_keys.2 [("float1", "asc"), ("int1", "asc")] (by decide)⟩

/-! ## Dispatch lemmas for `patchArt` -/

theorem patchArt_absent {s : State} {c : Caller} {aid : Nat} {ops : List PatchOp}
    (hl : lookupArt s aid = none) : patchArt s c aid ops = (404, s) := by
  unfold patchArt
  rw [hl]

theorem patchArt_invisible {s : State} {c : Caller} {aid : Nat} {ops : List PatchOp}
    {a : Artifact} (hl : lookupArt s aid = some a)
    (hvis : visibleTo c a = false) : patchArt s c aid ops = (404, s) := by
  unfold patchArt
  rw [hl]
  dsimp only
  rw [if_neg (by rw [hvis]; exact Bool.false_ne_true)]

theorem patchArt_invalid {s : State} {c : Caller} {aid : Nat} {ops : List PatchOp}
    {a : Artifact} (hl : lookupArt s aid = some a) (hvis : visibleTo c a = true)
    (hops : applyOps a ops = none) : patchArt s c aid ops = (400, s) := by
  unfold patchArt
  rw [hl]
  dsimp only
  rw [if_pos hvis, hops]

theorem patchArt_noop {s : State} {c : Caller} {aid : Nat} {ops : List PatchOp}
    {a a2 : Artifact} (hl : lookupArt s aid = some a) (hvis : visibleTo c a = true)
    (hops : applyOps a ops = some a2) (hch : changedFields a a2 = []) :
    patchArt s c aid ops = (200, s) := by
  unfold patchArt
  rw [hl]
  dsimp only
  rw [if_pos hvis, hops]
  dsimp only
  rw [if_pos hch]

theorem patchArt_mixed {s : State} {c : Caller} {aid : Nat} {ops : List PatchOp}
    {a a2 : Artifact} (hl : lookupArt s aid = some a) (hvis : visibleTo c a = true)
    (hops : applyOps a ops = some a2)
    (hmem : "status" ∈ changedFields a a2 ∨ "visibility" ∈ changedFields a a2)
    (hlen : (changedFields a a2).length > 1) :
    patchArt s c aid ops = (400, s) := by
  unfold patchArt
  rw [hl]
  dsimp only
  rw [if_pos hvis, hops]
  dsimp only
  rw [if_neg (by intro hcon; rw [hcon] at hlen; exact absurd hlen (by decide)),
    if_pos hmem, if_pos hlen]

theorem patchArt_status {s : State} {c : Caller} {aid : Nat} {ops : List PatchOp}
    {a a2 : Artifact} (hl : lookupArt s aid = some a) (hvis : visibleTo c a = true)
    (hops : applyOps a ops = some a2) (hch : changedFields a a2 = ["status"]) :
    patchArt s c aid ops = statusChange s c a a2.status := by
  unfold patchArt
  rw [hl]
  dsimp only
  rw [if_pos hvis, hops]
  dsimp only
  rw [hch]
  rw [if_neg (by decide), if_pos (by decide), if_neg (by decide), if_pos (by decide)]

theorem patchArt_vis {s : State} {c : Caller} {aid : Nat} {ops : List PatchOp}
    {a a2 : Artifact} (hl : lookupArt s aid = some a) (hvis : visibleTo c a = true)
    (hops : applyOps a ops = some a2) (hch : changedFields a a2 = ["visibility"]) :
    patchArt s c aid ops = visibilityChange s c a a2.visibility := by
  unfold patchArt
  rw [hl]
  dsimp only
  rw [if_pos hvis, hops]
  dsimp only
  rw [hch]
  rw [if_neg (by decide), if_pos (by decide), if_neg (by decide), if_neg (by decide)]

theorem patchArt_regular {s : State} {c : Caller} {aid : Nat} {ops : List PatchOp}
    {a a2 : Artifact} (hl : lookupArt s aid = some a) (hvis : visibleTo c a = true)
    (hops : applyOps a ops = some a2) (hch : changedFields a a2 ≠ [])
    (hns : "status" ∉ changedFields a a2) (hnv : "visibility" ∉ changedFields a a2) :
    patchArt s c aid ops = regularUpdate s c a a2 := by
  unfold patchArt
  rw [hl]
  dsimp only
  rw [if_pos hvis, hops]
  dsimp only
  rw [if_neg hch, if_neg (by intro hcon; rcases hcon with h | h; exact hns h; exact hnv h)]


/-- C10: creating an artifact without a version assigns the default
version 0.0.0, and the uniqueness check compares normalized versions:
"0.0" parses to the same version as "0.0.0", so a second create by the
same owner with the same name and version "0.0" conflicts (409) while the
first create stored "0.0.0". -/
theorem C10_default_version :
    parseVersion "0.0.0" = some defaultVersion ∧
    parseVersion "0.0" = some defaultVersion ∧
    (∀ s c d t nm, c.tenant = some t → d.visibility = none →
      d.system_attribute = none → d.name = some nm →
      ¬(nm.length = 0 ∨ nm.length > 255) → d.version = none →
      privConflict s.arts none "sample_artifact" nm defaultVersion t = false →
      createArt s c d = (201,
        ⟨{ id := s.nextId, typeName := "sample_artifact", name := nm,
           version := defaultVersion, owner := t, visibility := .priv,
           status := .queued, description := d.description,
           string_mutable := d.string_mutable,
           string_required := d.string_required, str1 := d.str1,
           blob := none } :: s.arts, s.nextId + 1⟩)) ∧
    (∀ s c d t nm, c.tenant = some t → d.visibility = none →
      d.system_attribute = none → d.name = some nm →
      ¬(nm.length = 0 ∨ nm.length > 255) → d.version = some "0.0" →
      privConflict s.arts none "sample_artifact" nm defaultVersion t = true →
      createArt s c d = (409, s)) := by
  have hp0 : parseVersion "0.0.0" = some defaultVersion := by decide
  have hp1 : parseVersion "0.0" = some defaultVersion := by decide
  refine ⟨hp0, hp1, ?_, ?_⟩
  · intro s c d t nm htc hvis hsys hnm hlen hver hconf
    unfold createArt
    rw [htc]
    simp only [hvis, hsys, hnm, hver, ne_eq, not_true_eq_false, ite_false,
      not_false_eq_true, Option.getD_none, if_neg hlen, Function.comp]
    rw [show (parseVersion "0.0.0") = some defaultVersion from hp0]
    simp only [hconf, Bool.false_eq_true, if_false]
  · intro s c d t nm htc hvis hsys hnm hlen hver hconf
    unfold createArt
    rw [htc]
    simp only [hvis, hsys, hnm, hver, ne_eq, not_true_eq_false, ite_false,
      not_false_eq_true, Option.getD_some, if_neg hlen]
    rw [show (parseVersion "0.0") = some defaultVersion from hp1]
    simp only [hconf, if_true]

/-- Witness for C10: on the empty state, creating "a" without a version
stores version 0.0.0; creating "a" again with version "0.0" then
conflicts. -/
theorem C10_default_version_witness :
    (mkCreate "a").version = none ∧
    createArt initState tenant1 (mkCreate "a") = (201,
      ⟨[{ id := 0, typeName := "sample_artifact", name := "a",
          version := defaultVersion, owner := "t1", visibility := .priv,
          status := .queued, description := none, string_mutable := none,
          string_required := some "req", str1 := none, blob := none }], 1⟩) ∧
    createArt oneArtState tenant1
      ⟨some "a", some "0.0", none, none, none, none, some "req", none⟩ =
      (409, oneArtState) :=
  ⟨rfl,
   C10_default_version.2.2.1 initState tenant1 (mkCreate "a") "t1" "a"
     rfl rfl rfl rfl (by decide) rfl (by decide),
   C10_default_version.2.2.2 oneArtState tenant1 _ "t1" "a"
     rfl rfl rfl rfl (by decide) rfl (by decide)⟩

/-- C4: for every private artifact and every non-admin caller of a
different tenant, read, blob download, blob upload and delete all return
the absence signal 404 (never 403) — the same responses as for a
non-existent artifact id. -/
theorem C4_foreign_private_absence :
    (∀ s c aid a t, lookupArt s aid = some a → a.visibility = .priv →
      c.isAdmin = false → c.tenant = some t → t ≠ a.owner →
      getArt s c aid = 404 ∧ downloadBlob s c aid = 404 ∧
      (∀ sz, uploadBlob s c aid sz = (404, s)) ∧ deleteArt s c aid = (404, s)) ∧
    (∀ s c aid, lookupArt s aid = none → c.tenant ≠ none →
      getArt s c aid = 404 ∧ downloadBlob s c aid = 404 ∧
      (∀ sz, uploadBlob s c aid sz = (404, s)) ∧ deleteArt s c aid = (404, s)) := by
  constructor
  · intro s c aid a t hl hvis hadm htc ht
    have hv : visibleTo c a = false := by
      simp [visibleTo, hvis, hadm, htc, ht]
    refine ⟨?_, ?_, ?_, ?_⟩
    · unfold getArt
      rw [hl]
      dsimp only
      rw [if_neg (by rw [hv]; exact Bool.false_ne_true)]
    · unfold downloadBlob
      rw [hl]
      dsimp only
      rw [if_neg (by rw [hv]; exact Bool.false_ne_true)]
    · intro sz
      unfold uploadBlob
      rw [hl]
      dsimp only
      rw [if_neg (by rw [hv]; exact Bool.false_ne_true)]
    · unfold deleteArt
      rw [if_neg (by rw [htc]; exact fun hcon => Option.noConfusion hcon), hl]
      dsimp only
      rw [if_neg (by rw [hv]; exact Bool.false_ne_true)]
  · intro s c aid hl htc
    refine ⟨?_, ?_, ?_, ?_⟩
    · unfold getArt
      rw [hl]
    · unfold downloadBlob
      rw [hl]
    · intro sz
      unfold uploadBlob
      rw [hl]
    · unfold deleteArt
      rw [if_neg htc, hl]

/-- Witness for C4: `tenant2` observes 404 from all four operations on
`tenant1`'s private artifact, exactly as on the absent id 99. -/
theorem C4_foreign_private_absence_witness :
    getArt oneArtState tenant2 0 = 404 ∧ downloadBlob oneArtState tenant2 0 = 404 ∧
    uploadBlob oneArtState tenant2 0 4 = (404, oneArtState) ∧
    deleteArt oneArtState tenant2 0 = (404, oneArtState) ∧
    getArt oneArtState tenant2 99 = 404 ∧ downloadBlob oneArtState tenant2 99 = 404 ∧
    uploadBlob oneArtState tenant2 99 4 = (404, oneArtState) ∧
    deleteArt oneArtState tenant2 99 = (404, oneArtState) := by
  have h1 := C4_foreign_private_absence.1 oneArtState tenant2 0
    { id := 0, typeName := "sample_artifact", name := "a",
      version := defaultVersion, owner := "t1", visibility := .priv,
      status := .queued, description := none, string_mutable := none,
      string_required := some "req", str1 := none, blob := none }
    "t2" (by decide) rfl rfl rfl (by decide)
  have h2 := C4_foreign_private_absence.2 oneArtState tenant2 99 (by decide) (by decide)
  exact ⟨h1.1, h1.2.1, h1.2.2.1 4, h1.2.2.2, h2.1, h2.2.1, h2.2.2.1 4, h2.2.2.2⟩


/-- C9: a visible blob slot downloads successfully exactly when its status
is active; a slot with no finalized data yields 400; an upload or an
external-location registration to an occupied slot yields 409. -/
theorem C9_blob_slot :
    (∀ s c aid a, lookupArt s aid = some a → visibleTo c a = true →
      ¬(a.status = .deactivated ∧ ¬c.isAdmin = true) →
      (downloadBlob s c aid = 200 ↔ ∃ bl, a.blob = some bl ∧ bl.bstatus = .active)) ∧
    (∀ s c aid a, lookupArt s aid = some a → visibleTo c a = true →
      ¬(a.status = .deactivated ∧ ¬c.isAdmin = true) → a.blob = none →
      downloadBlob s c aid = 400) ∧
    (∀ s c aid a bl sz, lookupArt s aid = some a → visibleTo c a = true →
      ¬(a.visibility = .pub ∧ ¬c.isAdmin = true) → a.blob = some bl →
      uploadBlob s c aid sz = (409, s) ∧ addLocation s c aid sz = (409, s)) := by
  refine ⟨?_, ?_, ?_⟩
  · intro s c aid a hl hvis hda
    unfold downloadBlob
    rw [hl]
    dsimp only
    rw [if_pos hvis, if_neg hda]
    cases hb : a.blob with
    | none => simp [hb]
    | some bl =>
      dsimp only
      cases hbs : bl.bstatus with
      | saving =>
        rw [if_neg (fun hcon => BlobStatus.noConfusion hcon)]
        constructor
        · intro hcon; exact absurd hcon (by decide)
        · intro ⟨bl2, hbl2, hbl2s⟩
          cases hbl2
          rw [hbs] at hbl2s
          cases hbl2s
      | active =>
        rw [if_pos rfl]
        exact iff_of_true rfl ⟨bl, rfl, hbs⟩
  · intro s c aid a hl hvis hda hb
    unfold downloadBlob
    rw [hl]
    dsimp only
    rw [if_pos hvis, if_neg hda, hb]
  · intro s c aid a bl sz hl hvis hpub hb
    constructor
    · unfold uploadBlob
      rw [hl]
      dsimp only
      rw [if_pos hvis, if_neg hpub, hb]
    · unfold addLocation
      rw [hl]
      dsimp only
      rw [if_pos hvis, if_neg hpub, hb]

/-- Witness for C9: on the private queued artifact of `oneArtState` with
an uploaded blob, the owner can download (200); before upload the download
is 400; re-upload and external registration give 409. -/
theorem C9_blob_slot_witness :
    downloadBlob (uploadBlob oneArtState tenant1 0 4).2 tenant1 0 = 200 ∧
    downloadBlob oneArtState tenant1 0 = 400 ∧
    uploadBlob (uploadBlob oneArtState tenant1 0 4).2 tenant1 0 7 =
      (409, (uploadBlob oneArtState tenant1 0 4).2) ∧
    addLocation (uploadBlob oneArtState tenant1 0 4).2 tenant1 0 7 =
      (409, (uploadBlob oneArtState tenant1 0 4).2) := by
  have hup := C9_blob_slot.2.2 (uploadBlob oneArtState tenant1 0 4).2 tenant1 0
    { id := 0, typeName := "sample_artifact", name := "a",
      version := defaultVersion, owner := "t1", visibility := .priv,
      status := .queued, description := none, string_mutable := none,
      string_required := some "req", str1 := none,
      blob := some ⟨4, .active, false⟩ } ⟨4, .active, false⟩ 7
    (by decide) (by decide) (by decide) rfl
  have hdl := (C9_blob_slot.1 (uploadBlob oneArtState tenant1 0 4).2 tenant1 0
    { id := 0, typeName := "sample_artifact", name := "a",
      version := defaultVersion, owner := "t1", visibility := .priv,
      status := .queued, description := none, string_mutable := none,
      string_required := some "req", str1 := none,
      blob := some ⟨4, .active, false⟩ }
    (by decide) (by decide) (by decide)).mpr ⟨⟨4, .active, false⟩, rfl, rfl⟩
  have hd0 := C9_blob_slot.2.1 oneArtState tenant1 0
    { id := 0, typeName := "sample_artifact", name := "a",
      version := defaultVersion, owner := "t1", visibility := .priv,
      status := .queued, description := none, string_mutable := none,
      string_required := some "req", str1 := none, blob := none }
    (by decide) (by decide) (by decide) rfl
  exact ⟨hdl, hd0, hup.1, hup.2⟩

/-- C5 as stated is false: on an active private artifact, a PATCH by the
owner (a non-admin) that modifies only the mutable attribute
`string_mutable` succeeds with 200 and updates the attribute
(test_artifact_update_after_activate_and_publish lines 1271-1278). -/
theorem C5_counterexample :
    (lookupArt activeState 0).map (fun a => (a.status, a.visibility, a.owner)) =
      some (.active, .priv, "t1") ∧
    tenant1 = ⟨some "t1", false⟩ ∧
    (patchArt activeState tenant1 0 [.setStringMutable "new"]).1 = 200 ∧
    (lookupArt (patchArt activeState tenant1 0 [.setStringMutable "new"]).2 0).map
      (fun a => a.string_mutable) = some (some "new") := by
  decide

/-- C5 amended: on an active *private* artifact the owner (non-admin) may
modify mutable attributes (200); once the artifact is public, modifying a
mutable attribute is denied to non-admins (403) and allowed to admins
(200). -/
theorem C5_active_mutability :
    (∀ s c aid a v, lookupArt s aid = some a → a.status = .active →
      a.visibility = .priv → c.tenant = some a.owner → c.isAdmin = false →
      a.string_mutable ≠ some v →
      patchArt s c aid [.setStringMutable v] =
        (200, setArt s aid { a with string_mutable := some v })) ∧
    (∀ s c aid a v, lookupArt s aid = some a → a.status = .active →
      a.visibility = .pub → c.isAdmin = false →
      a.string_mutable ≠ some v →
      patchArt s c aid [.setStringMutable v] = (403, s)) ∧
    (∀ s c aid a v, lookupArt s aid = some a → a.status = .active →
      c.isAdmin = true → a.string_mutable ≠ some v →
      patchArt s c aid [.setStringMutable v] =
        (200, setArt s aid { a with string_mutable := some v })) := by
  have hops : ∀ (a : Artifact) (v : String),
      applyOps a [.setStringMutable v] = some { a with string_mutable := some v } :=
    fun a v => rfl
  have hcommit : ∀ s c (a : Artifact) v, a.status = .active →
      ¬((a.visibility = .pub ∨ a.status = .deactivated) ∧ ¬c.isAdmin = true) →
      a.string_mutable ≠ some v →
      regularUpdate s c a { a with string_mutable := some v } =
        (200, setArt s a.id { a with string_mutable := some v }) := by
    intro s c a v hact hfree hne
    unfold regularUpdate
    dsimp only
    rw [changedFields_strMut_eq a v hne]
    rw [if_neg (by decide), if_neg (fun hcon => absurd hcon.1 (by decide)),
      if_pos (Or.inl hact), if_neg (by decide), if_neg hfree]
  refine ⟨?_, ?_, ?_⟩
  · intro s c aid a v hl hact hvis htc hadm hne
    obtain ⟨hmem, haid⟩ := lookupArt_mem hl
    have hv : visibleTo c a = true := by simp [visibleTo, htc, hact]
    rw [patchArt_regular hl hv (hops a v)
        (by rw [changedFields_strMut_eq a v hne]; exact fun hcon => List.noConfusion hcon)
        (by rw [changedFields_strMut_eq a v hne]; decide)
        (by rw [changedFields_strMut_eq a v hne]; decide),
      hcommit s c a v hact ?_ hne, haid]
    intro hcon
    rcases hcon.1 with h | h
    · rw [hvis] at h; cases h
    · rw [hact] at h; cases h
  · intro s c aid a v hl hact hvis hadm hne
    have hv : visibleTo c a = true := by simp [visibleTo, hvis, hact]
    rw [patchArt_regular hl hv (hops a v)
        (by rw [changedFields_strMut_eq a v hne]; exact fun hcon => List.noConfusion hcon)
        (by rw [changedFields_strMut_eq a v hne]; decide)
        (by rw [changedFields_strMut_eq a v hne]; decide)]
    unfold regularUpdate
    dsimp only
    rw [changedFields_strMut_eq a v hne]
    rw [if_neg (by decide), if_neg (fun hcon => absurd hcon.1 (by decide)),
      if_pos (Or.inl hact), if_neg (by decide),
      if_pos ⟨Or.inl hvis, by rw [hadm]; decide⟩]
  · intro s c aid a v hl hact hadm hne
    obtain ⟨hmem, haid⟩ := lookupArt_mem hl
    have hv : visibleTo c a = true := by simp [visibleTo, hadm, hact]
    rw [patchArt_regular hl hv (hops a v)
        (by rw [changedFields_strMut_eq a v hne]; exact fun hcon => List.noConfusion hcon)
        (by rw [changedFields_strMut_eq a v hne]; decide)
        (by rw [changedFields_strMut_eq a v hne]; decide),
      hcommit s c a v hact (fun hcon => hcon.2 (by rw [hadm])) hne, haid]

/-- Witness for C5: the owner updates `string_mutable` on their active
private artifact (200); after publish the owner gets 403 and the admin
succeeds. -/
theorem C5_active_mutability_witness :
    patchArt activeState tenant1 0 [.setStringMutable "x"] =
      (200, setArt activeState 0
        { id := 0, typeName := "sample_artifact", name := "a",
          version := defaultVersion, owner := "t1", visibility := .priv,
          status := .active, description := none, string_mutable := some "x",
          string_required := some "req", str1 := none, blob := none }) ∧
    patchArt publicState tenant1 0 [.setStringMutable "x"] = (403, publicState) ∧
    patchArt publicState adminCaller 0 [.setStringMutable "x"] =
      (200, setArt publicState 0
        { id := 0, typeName := "sample_artifact", name := "a",
          version := defaultVersion, owner := "t1", visibility := .pub,
          status := .active, description := none, string_mutable := some "x",
          string_required := some "req", str1 := none, blob := none }) :=
  ⟨C5_active_mutability.1 activeState tenant1 0
     { id := 0, typeName := "sample_artifact", name := "a",
       version := defaultVersion, owner := "t1", visibility := .priv,
       status := .active, description := none, string_mutable := none,
       string_required := some "req", str1 := none, blob := none } "x"
     (by decide) rfl rfl rfl rfl (by decide),
   C5_active_mutability.2.1 publicState tenant1 0
     { id := 0, typeName := "sample_artifact", name := "a",
       version := defaultVersion, owner := "t1", visibility := .pub,
       status := .active, description := none, string_mutable := none,
       string_required := some "req", str1 := none, blob := none } "x"
     (by decide) rfl rfl rfl (by decide),
   C5_active_mutability.2.2 publicState adminCaller 0
     { id := 0, typeName := "sample_artifact", name := "a",
       version := defaultVersion, owner := "t1", visibility := .pub,
       status := .active, description := none, string_mutable := none,
       string_required := some "req", str1 := none, blob := none } "x"
     (by decide) rfl rfl (by decide)⟩


/-- C3 as stated is false: a PATCH containing a status change together
with another operation succeeds (200) and activates the artifact when the
other operation merely re-applies the current attribute value
(test_artifact_activate lines 1197-1204). -/
theorem C3_counterexample :
    (patchArt oneArtState tenant1 0
      [.setStatus "active", .setStringRequired "req"]).1 = 200 ∧
    (lookupArt (patchArt oneArtState tenant1 0
      [.setStatus "active", .setStringRequired "req"]).2 0).map
        (fun a => a.status) = some .active := by
  decide

/-- C3 amended: a PATCH whose *effective changes* include status or
visibility together with any other changed attribute is rejected with 400
and leaves the state unchanged — an operation that re-applies an
attribute's current value produces no change and does not count; a patch
that re-applies the artifact's current status succeeds with 200 as a
no-op. -/
theorem C3_exclusive_status_patch :
    (∀ s c aid ops a a2, lookupArt s aid = some a → visibleTo c a = true →
      applyOps a ops = some a2 →
      ("status" ∈ changedFields a a2 ∨ "visibility" ∈ changedFields a a2) →
      (changedFields a a2).length > 1 →
      patchArt s c aid ops = (400, s)) ∧
    (∀ s c aid a v, lookupArt s aid = some a → visibleTo c a = true →
      parseStatus v = some a.status →
      patchArt s c aid [.setStatus v] = (200, s)) := by
  constructor
  · intro s c aid ops a a2 hl hvis hops hmem hlen
    exact patchArt_mixed hl hvis hops hmem hlen
  · intro s c aid a v hl hvis hpv
    have hop1 : applyOp a (.setStatus v) = some a := by
      unfold applyOp
      dsimp only
      rw [hpv]
      rfl
    have hops : applyOps a [.setStatus v] = some a := by
      unfold applyOps
      rw [hop1]
      rfl
    exact patchArt_noop hl hvis hops (changedFields_self a)

/-- Witness for C3: a status patch mixed with an effective name change on
the queued artifact of `oneArtState` is rejected unchanged; re-applying
the current status `queued` is a 200 no-op. -/
theorem C3_exclusive_status_patch_witness :
    patchArt oneArtState tenant1 0 [.setStatus "active", .setName "b"] =
      (400, oneArtState) ∧
    patchArt oneArtState tenant1 0 [.setStatus "queued"] = (200, oneArtState) :=
  ⟨C3_exclusive_status_patch.1 oneArtState tenant1 0
     [.setStatus "active", .setName "b"]
     { id := 0, typeName := "sample_artifact", name := "a",
       version := defaultVersion, owner := "t1", visibility := .priv,
       status := .queued, description := none, string_mutable := none,
       string_required := some "req", str1 := none, blob := none }
     { id := 0, typeName := "sample_artifact", name := "b",
       version := defaultVersion, owner := "t1", visibility := .priv,
       status := .active, description := none, string_mutable := none,
       string_required := some "req", str1 := none, blob := none }
     (by decide) (by decide) (by decide) (by decide) (by decide),
   C3_exclusive_status_patch.2 oneArtState tenant1 0
     { id := 0, typeName := "sample_artifact", name := "a",
       version := defaultVersion, owner := "t1", visibility := .priv,
       status := .queued, description := none, string_mutable := none,
       string_required := some "req", str1 := none, blob := none }
     "queued" (by decide) (by decide) (by decide)⟩

/-- The permitted strict status transitions of the patch state machine. -/
def statusEdges : List (Status × Status) :=
  [(.queued, .active), (.active, .deactivated), (.deactivated, .active)]

/-- The stored status of the artifact with the given id. -/
def statusOf (s : State) (aid : Nat) : Option Status :=
  (lookupArt s aid).map (fun a => a.status)

theorem visibleTo_not_deleted {c : Caller} {a : Artifact}
    (h : visibleTo c a = true) : a.status ≠ .deleted := by
  unfold visibleTo at h
  rw [Bool.and_eq_true] at h
  exact of_decide_eq_true h.1

theorem statusOf_setArt (s : State) (aid : Nat) (a2 : Artifact)
    (hid : a2.id = aid) :
    statusOf (setArt s aid a2) aid = (lookupArt s aid).map (fun _ => a2.status) := by
  unfold statusOf
  rw [lookupArt_setArt s aid a2 hid, Option.map_map]
  rfl

theorem patchArt_status_edge (s : State) (c : Caller) (aid : Nat) (ops : List PatchOp) :
    statusOf (patchArt s c aid ops).2 aid = statusOf s aid ∨
    (∃ a st2, lookupArt s aid = some a ∧ (a.status, st2) ∈ statusEdges ∧
      statusOf (patchArt s c aid ops).2 aid = some st2) := by
  unfold patchArt
  cases hl : lookupArt s aid with
  | none => left; rfl
  | some a =>
    obtain ⟨hmem, haid⟩ := lookupArt_mem hl
    dsimp only
    split
    · cases hops : applyOps a ops with
      | none => left; rfl
      | some a2 =>
        obtain ⟨hid2, _, _, _⟩ := applyOps_const hops
        dsimp only
        split
        · left; rfl
        split
        · split
          · left; rfl
          split
          · -- status-only patch
            unfold statusChange
            cases hst : a.status <;> cases hst2 : a2.status <;> dsimp only <;>
              (try (left; rfl))
            · split
              · left; rfl
              split
              · right
                refine ⟨a, .active, rfl, by rw [hst]; decide, ?_⟩
                rw [haid, statusOf_setArt s aid _ rfl, hl]
                rfl
              · left; rfl
            · split
              · right
                refine ⟨a, .deactivated, rfl, by rw [hst]; decide, ?_⟩
                rw [haid, statusOf_setArt s aid _ rfl, hl]
                rfl
              · left; rfl
            · split
              · right
                refine ⟨a, .active, rfl, by rw [hst]; decide, ?_⟩
                rw [haid, statusOf_setArt s aid _ rfl, hl]
                rfl
              · left; rfl
          · -- visibility-only patch
            unfold visibilityChange
            cases a2.visibility <;> dsimp only
            · left; rfl
            · split
              · left; rfl
              split
              · left; rfl
              split
              · left; rfl
              · left
                rw [haid, statusOf_setArt s aid _ rfl, hl]
                unfold statusOf
                rw [hl]
                rfl
        next hnsv =>
          have hst2 : a2.status = a.status := by
            have := (status_mem_changedFields a a2).not.mp
              (fun hmemx => hnsv (Or.inl hmemx))
            rw [not_not] at this
            exact this.symm
          unfold regularUpdate
          dsimp only
          split
          · left; rfl
          split
          · left; rfl
          have hcommit : statusOf (200, setArt s a.id a2).2 aid = statusOf s aid := by
            rw [haid]
            dsimp only
            rw [statusOf_setArt s aid a2 (by rw [hid2, haid]), hl, hst2]
            unfold statusOf
            rw [hl]
            rfl
          split
          · split
            · left; rfl
            split
            · left; rfl
            · left; exact hcommit
          · split
            · left; rfl
            · left; exact hcommit
    · left; rfl

theorem deleteArt_cases (s : State) (c : Caller) (aid : Nat) :
    (deleteArt s c aid).1 ≠ 204 ∨
    ∃ a, lookupArt s aid = some a ∧ visibleTo c a = true ∧ a.id = aid ∧
      deleteArt s c aid = (204, setArt s aid { a with status := .deleted }) := by
  unfold deleteArt
  split
  · left; simp
  next h1 =>
    cases hl : lookupArt s aid with
    | none => left; simp
    | some a =>
      obtain ⟨hmem, haid⟩ := lookupArt_mem hl
      dsimp only
      split
      next h2 =>
        split
        next => left; simp
        next h3 =>
          right
          refine ⟨a, rfl, h2, haid, ?_⟩
          rw [haid]
      next h2 =>
        left; simp

/-- C2: the status of an artifact only ever moves along the edges
queued→active, active↔deactivated (via PATCH) and
{queued,active,deactivated}→deleted (via DELETE); a patch requesting any
other transition fails — deactivating a queued artifact returns 400 — and
a client patch setting status "deleting" is rejected with 400. -/
theorem C2_status_transitions :
    (∀ s c aid ops st st2, statusOf s aid = some st →
      statusOf (patchArt s c aid ops).2 aid = some st2 →
      st = st2 ∨ (st, st2) ∈ statusEdges) ∧
    (∀ s c aid a, lookupArt s aid = some a → visibleTo c a = true →
      a.status = .queued →
      patchArt s c aid [.setStatus "deactivated"] = (400, s)) ∧
    (∀ s c aid ops a, lookupArt s aid = some a → visibleTo c a = true →
      PatchOp.setStatus "deleting" ∈ ops → patchArt s c aid ops = (400, s)) ∧
    (∀ s c aid st st2, (deleteArt s c aid).1 = 204 →
      statusOf s aid = some st →
      statusOf (deleteArt s c aid).2 aid = some st2 →
      st ≠ .deleted ∧ st2 = .deleted) := by
  refine ⟨?_, ?_, ?_, ?_⟩
  · intro s c aid ops st st2 hst hst2
    rcases patchArt_status_edge s c aid ops with h | ⟨a, stx, hlx, hedge, hx⟩
    · rw [h, hst] at hst2
      exact Or.inl (Option.some.inj hst2)
    · unfold statusOf at hst
      rw [hlx] at hst
      have h1 : a.status = st := Option.some.inj hst
      rw [hx] at hst2
      have h2 : stx = st2 := Option.some.inj hst2
      right
      rw [← h1, ← h2]
      exact hedge
  · intro s c aid a hl hvis hq
    have hne : a.status ≠ .deactivated := by rw [hq]; decide
    have hops : applyOps a [.setStatus "deactivated"] =
        some { a with status := .deactivated } := rfl
    rw [patchArt_status hl hvis hops (changedFields_status_eq a .deactivated hne)]
    unfold statusChange
    rw [hq]
  · intro s c aid ops a hl hvis hmemop
    exact patchArt_invalid hl hvis (applyOps_deleting hmemop)
  · intro s c aid st st2 hcode hst hst2
    rcases deleteArt_cases s c aid with h | ⟨a, hlx, hvisx, haidx, heq⟩
    · exact absurd hcode h
    · unfold statusOf at hst
      rw [hlx] at hst
      have h1 : a.status = st := Option.some.inj hst
      rw [heq] at hst2
      rw [show ((204 : Nat), setArt s aid { a with status := Status.deleted }).2 =
          setArt s aid { a with status := Status.deleted } from rfl] at hst2
      rw [statusOf_setArt s aid { a with status := Status.deleted } haidx, hlx] at hst2
      refine ⟨h1 ▸ visibleTo_not_deleted hvisx, ?_⟩
      exact (Option.some.inj hst2).symm

/-- The artifact stored in `oneArtState`. -/
def art0 : Artifact :=
  { id := 0, typeName := "sample_artifact", name := "a",
    version := defaultVersion, owner := "t1", visibility := .priv,
    status := .queued, description := none, string_mutable := none,
    string_required := some "req", str1 := none, blob := none }

/-- Witness for C2: activating the queued artifact of `oneArtState` moves
along the queued→active edge; deactivating it gives 400, a patch to
"deleting" gives 400, and deletion moves it to `deleted`. -/
theorem C2_status_transitions_witness :
    (statusOf oneArtState 0 = some .queued ∧
     statusOf (patchArt oneArtState tenant1 0 [.setStatus "active"]).2 0 =
       some .active ∧
     (Status.queued = Status.active ∨ (Status.queued, Status.active) ∈ statusEdges)) ∧
    patchArt oneArtState adminCaller 0 [.setStatus "deactivated"] =
      (400, oneArtState) ∧
    patchArt oneArtState tenant1 0 [.setStatus "deleting"] = (400, oneArtState) ∧
    ((deleteArt oneArtState tenant1 0).1 = 204 ∧
     statusOf (deleteArt oneArtState tenant1 0).2 0 = some .deleted ∧
     Status.queued ≠ .deleted ∧ Status.deleted = .deleted) := by
  refine ⟨⟨by decide, by decide, ?_⟩, ?_, ?_, by decide, by decide, ?_, rfl⟩
  · exact C2_status_transitions.1 oneArtState tenant1 0 [.setStatus "active"]
      .queued .active (by decide) (by decide)
  · exact C2_status_transitions.2.1 oneArtState adminCaller 0 art0
      (by decide) (by decide) rfl
  · exact C2_status_transitions.2.2.1 oneArtState tenant1 0 [.setStatus "deleting"]
      art0 (by decide) (by decide) (by decide)
  · exact (C2_status_transitions.2.2.2 oneArtState tenant1 0 .queued .deleted
      (by decide) (by decide) (by decide)).1

theorem createArt_eval {s : State} {c : Caller} {d : CreateData} {t nm : String}
    {ver : SemVer} (htc : c.tenant = some t) (hvis : d.visibility = none)
    (hsys : d.system_attribute = none) (hnm : d.name = some nm)
    (hlen : ¬(nm.length = 0 ∨ nm.length > 255))
    (hver : parseVersion (d.version.getD "0.0.0") = some ver) :
    createArt s c d =
      (if privConflict s.arts none "sample_artifact" nm ver t then (409, s)
       else (201, ⟨{ id := s.nextId, typeName := "sample_artifact", name := nm,
                     version := ver, owner := t, visibility := .priv,
                     status := .queued, description := d.description,
                     string_mutable := d.string_mutable,
                     string_required := d.string_required, str1 := d.str1,
                     blob := none } :: s.arts, s.nextId + 1⟩)) := by
  unfold createArt
  rw [htc]
  simp only [hvis, hsys, hnm, ne_eq, not_true_eq_false, ite_false,
    not_false_eq_true, if_neg hlen]
  rw [hver]

/-- C1 as stated is false: after `tenant1`'s artifact ("a", 0.0.0) is
published, `tenant1` creates another artifact with the same type, name and
version (201), leaving two non-deleted artifacts of the same type and
owner sharing (name, version) (test_create_artifact lines 1023-1030). -/
theorem C1_counterexample :
    ((exec initState [.create tenant1 (mkCreate "a"),
        .patch tenant1 0 [.setStatus "active"],
        .patch adminCaller 0 [.setVisibility "public"],
        .create tenant1 (mkCreate "a")]).arts.map
      (fun a => (a.id, a.typeName, a.name, a.version, a.owner,
        decide (a.status ≠ .deleted)))) =
      [(1, "sample_artifact", "a", defaultVersion, "t1", true),
       (0, "sample_artifact", "a", defaultVersion, "t1", true)] ∧
    (createArt publicState tenant1 (mkCreate "a")).1 = 201 := by
  decide

/-- C1 amended: uniqueness is scoped by visibility.  For every request
sequence, no two non-deleted private artifacts share (type, name, version,
owner) and no two non-deleted public artifacts share (type, name, version)
(`noConflict`); a create or a version update that would duplicate in the
private scope fails with 409 and changes nothing; a different tenant may
create the same (name, version); publishing a second artifact whose
(type, name, version) is already public fails with 409 and changes
nothing; and creating a new private artifact with the (name, version) of a
public artifact succeeds even for the same owner. -/
theorem C1_uniqueness :
    (∀ reqs : List Request, ∀ a ∈ (exec initState reqs).arts,
      ∀ b ∈ (exec initState reqs).arts, b.id ≠ a.id → noConflict a b) ∧
    (∀ s c d t nm ver, c.tenant = some t → d.visibility = none →
      d.system_attribute = none → d.name = some nm →
      ¬(nm.length = 0 ∨ nm.length > 255) →
      parseVersion (d.version.getD "0.0.0") = some ver →
      privConflict s.arts none "sample_artifact" nm ver t = true →
      createArt s c d = (409, s)) ∧
    (∀ s c aid ops a a2, lookupArt s aid = some a → visibleTo c a = true →
      applyOps a ops = some a2 → changedFields a a2 = ["version"] →
      a.status = .queued →
      privConflict s.arts (some a.id) a2.typeName a2.name a2.version a2.owner = true →
      patchArt s c aid ops = (409, s)) ∧
    (∀ s c d t nm ver, c.tenant = some t → d.visibility = none →
      d.system_attribute = none → d.name = some nm →
      ¬(nm.length = 0 ∨ nm.length > 255) →
      parseVersion (d.version.getD "0.0.0") = some ver →
      (∀ b ∈ s.arts, b.owner ≠ t) →
      (createArt s c d).1 = 201) ∧
    (∀ s c aid a, lookupArt s aid = some a → visibleTo c a = true →
      a.status = .active → a.visibility = .priv → c.isAdmin = true →
      pubConflict s.arts a.id a.typeName a.name a.version = true →
      patchArt s c aid [.setVisibility "public"] = (409, s)) ∧
    (∀ s c d t nm ver, c.tenant = some t → d.visibility = none →
      d.system_attribute = none → d.name = some nm →
      ¬(nm.length = 0 ∨ nm.length > 255) →
      parseVersion (d.version.getD "0.0.0") = some ver →
      (∀ b ∈ s.arts, b.visibility ≠ .priv) →
      (createArt s c d).1 = 201) := by
  refine ⟨?_, ?_, ?_, ?_, ?_, ?_⟩
  · intro reqs
    have hInv := inv_exec initState reqs inv_initState
    exact pairwise_forall_ids hInv.2.2.2 hInv.1
  · intro s c d t nm ver htc hvis hsys hnm hlen hver hconf
    rw [createArt_eval htc hvis hsys hnm hlen hver, if_pos hconf]
  · intro s c aid ops a a2 hl hvisb hops hch hq hconf
    rw [patchArt_regular hl hvisb hops
      (by rw [hch]; exact fun hcon => List.noConfusion hcon)
      (by rw [hch]; decide) (by rw [hch]; decide)]
    unfold regularUpdate
    dsimp only
    rw [hch]
    rw [if_neg (by decide), if_neg (fun hcon => hcon.2 hq),
      if_neg (by rw [hq]; decide), if_pos ⟨by decide, hconf⟩]
  · intro s c d t nm ver htc hvis hsys hnm hlen hver hown
    have hconf : privConflict s.arts none "sample_artifact" nm ver t = false := by
      rw [privConflict, List.any_eq_false]
      intro b hb
      simp only [Bool.and_eq_true, decide_eq_true_eq, not_and]
      intro _ howner
      exact hown b hb howner
    rw [createArt_eval htc hvis hsys hnm hlen hver, if_neg (by rw [hconf]; decide)]
  · intro s c aid a hl hvisb hact hpriv hadm hconf
    have hops : applyOps a [.setVisibility "public"] =
        some { a with visibility := .pub } := rfl
    have hne : a.visibility ≠ .pub := by rw [hpriv]; decide
    rw [patchArt_vis hl hvisb hops (changedFields_vis_eq a .pub hne)]
    unfold visibilityChange
    dsimp only
    rw [if_neg (not_not_intro hact), if_neg (not_not_intro hadm), if_pos hconf]
  · intro s c d t nm ver htc hvis hsys hnm hlen hver hpub
    have hconf : privConflict s.arts none "sample_artifact" nm ver t = false := by
      rw [privConflict, List.any_eq_false]
      intro b hb
      simp only [Bool.and_eq_true, decide_eq_true_eq, not_and]
      intro hbig _
      exact hpub b hb hbig.1.1.1.2
    rw [createArt_eval htc hvis hsys hnm hlen hver, if_neg (by rw [hconf]; decide)]

/-- Two private queued artifacts of `tenant1` named "a", versions 0.0.0
and 1.0.0. -/
def twoVerState : State :=
  exec initState [.create tenant1 (mkCreate "a"),
    .create tenant1 ⟨some "a", some "1.0", none, none, none, none, some "req", none⟩]

/-- A public active ("a", 0.0.0) of `tenant1` next to a second active
private ("a", 0.0.0) of `tenant1`. -/
def dupActiveState : State :=
  exec initState [.create tenant1 (mkCreate "a"),
    .patch tenant1 0 [.setStatus "active"],
    .patch adminCaller 0 [.setVisibility "public"],
    .create tenant1 (mkCreate "a"),
    .patch tenant1 1 [.setStatus "active"]]

/-- Witness for C1: the uniqueness relation between the two stored
artifacts of `twoVerState`; a duplicate create 409; a version update onto
an existing (name, version) 409; a different-tenant create 201; a
duplicate publish 409; a private create shadowing a public artifact
201. -/
theorem C1_uniqueness_witness :
    noConflict
      { id := 1, typeName := "sample_artifact", name := "a",
        version := ⟨1, 0, 0⟩, owner := "t1", visibility := .priv,
        status := .queued, description := none, string_mutable := none,
        string_required := some "req", str1 := none, blob := none }
      art0 ∧
    createArt oneArtState tenant1 (mkCreate "a") = (409, oneArtState) ∧
    patchArt twoVerState tenant1 1 [.setVersion "0.0.0"] = (409, twoVerState) ∧
    (createArt oneArtState tenant2 (mkCreate "a")).1 = 201 ∧
    patchArt dupActiveState adminCaller 1 [.setVisibility "public"] =
      (409, dupActiveState) ∧
    (createArt publicState tenant1 (mkCreate "a")).1 = 201 := by
  refine ⟨?_, ?_, ?_, ?_, ?_, ?_⟩
  · exact C1_uniqueness.1
      [.create tenant1 (mkCreate "a"),
       .create tenant1 ⟨some "a", some "1.0", none, none, none, none, some "req", none⟩]
      _ (by decide) art0 (by decide) (by decide)
  · exact C1_uniqueness.2.1 oneArtState tenant1 (mkCreate "a") "t1" "a"
      defaultVersion rfl rfl rfl rfl (by decide) (by decide) (by decide)
  · exact C1_uniqueness.2.2.1 twoVerState tenant1 1 [.setVersion "0.0.0"]
      { id := 1, typeName := "sample_artifact", name := "a",
        version := ⟨1, 0, 0⟩, owner := "t1", visibility := .priv,
        status := .queued, description := none, string_mutable := none,
        string_required := some "req", str1 := none, blob := none }
      { id := 1, typeName := "sample_artifact", name := "a",
        version := ⟨0, 0, 0⟩, owner := "t1", visibility := .priv,
        status := .queued, description := none, string_mutable := none,
        string_required := some "req", str1 := none, blob := none }
      (by decide) (by decide) (by decide) (by decide) rfl (by decide)
  · exact C1_uniqueness.2.2.2.1 oneArtState tenant2 (mkCreate "a") "t2" "a"
      defaultVersion rfl rfl rfl rfl (by decide) (by decide) (by decide)
  · exact C1_uniqueness.2.2.2.2.1 dupActiveState adminCaller 1
      { id := 1, typeName := "sample_artifact", name := "a",
        version := defaultVersion, owner := "t1", visibility := .priv,
        status := .active, description := none, string_mutable := none,
        string_required := some "req", str1 := none, blob := none }
      (by decide) (by decide) rfl rfl rfl (by decide)
  · exact C1_uniqueness.2.2.2.2.2 publicState tenant1 (mkCreate "a") "t1" "a"
      defaultVersion rfl rfl rfl rfl (by decide) (by decide) (by decide)

end Glare
